import Mathlib

/-!
Verification development for the xmr-btc-swap repository.

The Rust sources under `src/` are embedded shallowly:

* `XmrBtc.Bob` — the typed state machine of `src/xmr-btc/src/bob.rs`.
  `next_state` is an `async` function whose external interactions
  (transport sends and receives, Bitcoin wallet calls, Monero wallet
  calls) are embedded as an environment of oracles plus an explicit
  trace of effects, so that temporal claims ("a persist happens before
  the broadcast") become statements about the trace.
* `Swap.Bitcoin` — `src/swap/src/bitcoin.rs` (`current_epoch`, the
  adaptor-signature helpers).
* `Swap.Storage` — `src/swap/src/storage.rs` (`insert_latest_state`,
  `get_latest_state` over a sled-style compare-and-swap store).
* `Swap.Network` — `src/swap/src/network/request_response.rs`
  (the request-response codec and its choice of serialisation format).
* `Swap.Cli` — `src/swap/src/cli/command.rs` (`validate_monero_address`).
* `Swap.Alice` — `src/swap/src/alice.rs` (`calculate_amounts`).
* `Adaptor` — the ECDSA adaptor-signature algebra used through
  `ecdsa_fun` (`encsign` / `decrypt_signature` / `recover_decryption_key`).

Cryptographic leaf values (keys, signatures, addresses, amounts) that
the state machine merely carries from one record to the next are
embedded as `Nat` tokens; the adaptor algebra, where the actual field
arithmetic decides the claim, is embedded over an arbitrary decidable
field in `Adaptor`.
-/

namespace XmrBtc

/-- Leaf token: a secp256k1 secret key (`bitcoin::SecretKey`). -/
abbrev BitcoinSecretKey := Nat

/-- Leaf token: a secp256k1 public key (`bitcoin::PublicKey`). -/
abbrev BitcoinPublicKey := Nat

/-- Leaf token: a cross-curve scalar (`cross_curve_dleq::Scalar`). -/
abbrev CrossCurveScalar := Nat

/-- Leaf token: a Monero private view key (`monero::PrivateViewKey`). -/
abbrev PrivateViewKey := Nat

/-- Leaf token: a Monero private key (`monero::PrivateKey`). -/
abbrev MoneroPrivateKey := Nat

/-- Leaf token: a Bitcoin amount in satoshi (`bitcoin::Amount`). -/
abbrev BtcAmount := Nat

/-- Leaf token: a Monero amount in piconero (`monero::Amount`). -/
abbrev XmrAmount := Nat

/-- Leaf token: a Bitcoin address (`bitcoin::Address`). -/
abbrev BitcoinAddress := Nat

/-- Leaf token: an ECDSA signature (`ecdsa_fun::Signature`). -/
abbrev Sig := Nat

/-- Leaf token: an ECDSA adaptor ciphertext (`ecdsa_fun::adaptor::EncryptedSignature`). -/
abbrev EncSig := Nat

/-- Leaf token: a raw Bitcoin transaction (`bitcoin::Transaction`). -/
abbrev Transaction := Nat

/-- Leaf token: a Bitcoin transaction id (`bitcoin::Txid`). -/
abbrev Txid := Nat

/-- Leaf token: a Monero transfer proof (`monero::TransferProof`). -/
abbrev TransferProof := Nat

/-- Modelled from the spec: a compressed ed25519 point
(`monero::PublicKey`); the curve library (curve25519-dalek) is not
under `src/`, so whether `point.decompress()` succeeds is carried as a
field of the value. -/
structure MoneroPublicKey where
  point : Nat
  decompressible : Bool
  deriving DecidableEq, Repr

/-- `EdwardsPoint` decompression as used in `State0::receive`
(`msg.S_a_monero.point.decompress()`). -/
def MoneroPublicKey.decompress (k : MoneroPublicKey) : Option Nat :=
  if k.decompressible then some k.point else none

/-- Modelled from the spec: a cross-curve DLEQ proof
(`cross_curve_dleq::Proof`); the proof system is not under `src/`, so
the outcome of `Proof::verify` against the two public keys named in the
message is carried as a field of the proof value. -/
structure DleqProof where
  valid : Bool
  deriving DecidableEq, Repr

/-- `cross_curve_dleq::Proof::verify` (library not under `src/`):
succeeds exactly when the proof is valid for the points it was made
for. -/
def DleqProof.verify (p : DleqProof) : Bool := p.valid

/-- `bitcoin::TxLock` as handled by Bob: built by the wallet
(`TxLock::new`), identified by its txid. -/
structure TxLock where
  id : Nat
  deriving DecidableEq, Repr

/-- `TxLock::txid`. -/
def TxLock.txid (t : TxLock) : Txid := t.id

/-- `bitcoin::TxCancel::new(&tx_lock, refund_timelock, A, B)`. -/
structure TxCancel where
  tx_lock_id : Nat
  timelock : Nat
  A : BitcoinPublicKey
  B : BitcoinPublicKey
  deriving DecidableEq, Repr

/-- `TxCancel::digest()`, embedded as an injective pairing of the
transaction's fields. -/
def TxCancel.digest (c : TxCancel) : Nat :=
  Nat.pair (Nat.pair c.tx_lock_id c.timelock) (Nat.pair c.A c.B)

/-- `bitcoin::TxRefund::new(&tx_cancel, &refund_address)`. -/
structure TxRefund where
  cancel : TxCancel
  address : BitcoinAddress
  deriving DecidableEq, Repr

/-- `TxRefund::digest()`. -/
def TxRefund.digest (r : TxRefund) : Nat :=
  Nat.pair (TxCancel.digest r.cancel) r.address

/-- `bitcoin::TxPunish::new(&tx_cancel, &punish_address, punish_timelock)`. -/
structure TxPunish where
  cancel : TxCancel
  address : BitcoinAddress
  timelock : Nat
  deriving DecidableEq, Repr

/-- `TxPunish::digest()`. -/
def TxPunish.digest (p : TxPunish) : Nat :=
  Nat.pair (Nat.pair (TxCancel.digest p.cancel) p.address) p.timelock

/-- `bitcoin::TxRedeem::new(&tx_lock, &redeem_address)`. -/
structure TxRedeem where
  tx_lock_id : Nat
  address : BitcoinAddress
  deriving DecidableEq, Repr

/-- `TxRedeem::digest()`. -/
def TxRedeem.digest (r : TxRedeem) : Nat :=
  Nat.pair r.tx_lock_id r.address

/-- `TxRedeem::txid()`. -/
def TxRedeem.txid (r : TxRedeem) : Txid :=
  Nat.pair r.tx_lock_id r.address

/-- `SecretKey::sign(digest)`: deterministic ECDSA, embedded as an
injective pairing of key and digest. -/
def bitcoinSign (b : BitcoinSecretKey) (digest : Nat) : Sig :=
  Nat.pair b digest

/-- `SecretKey::encsign(Y, digest)`: deterministic adaptor signing,
embedded as an injective pairing of key, encryption key and digest. -/
def bitcoinEncsign (b : BitcoinSecretKey) (Y : BitcoinPublicKey) (digest : Nat) : EncSig :=
  Nat.pair (Nat.pair b Y) digest

/-- `b.public()`: the verification key of a secret key, embedded as an
injective token map. -/
def bitcoinPublic (b : BitcoinSecretKey) : BitcoinPublicKey :=
  Nat.pair 1 b

end XmrBtc

namespace XmrBtc.Alice

open XmrBtc

/-- `xmr_btc::alice::Message0` (module `alice` of the `xmr-btc` crate is
not under `src/`; fields are modelled from the spec's message list and
from the uses in `bob::State0::receive`). -/
structure Message0 where
  A : BitcoinPublicKey
  S_a_monero : MoneroPublicKey
  S_a_bitcoin : BitcoinPublicKey
  dleq_proof_s_a : DleqProof
  v_a : PrivateViewKey
  redeem_address : BitcoinAddress
  punish_address : BitcoinAddress
  deriving DecidableEq, Repr

/-- `xmr_btc::alice::Message1` (fields from the uses in
`bob::State1::receive`). -/
structure Message1 where
  tx_cancel_sig : Sig
  tx_refund_encsig : EncSig
  deriving DecidableEq, Repr

/-- `xmr_btc::alice::Message2` (fields from the uses in
`bob::State3::watch_for_lock_xmr`). -/
structure Message2 where
  tx_lock_proof : TransferProof
  deriving DecidableEq, Repr

/-- Modelled from the spec: the `xmr_btc::alice::Message` enum that the
transport delivers to Bob (the `alice::message` module is not under
`src/`; the variants are those Bob converts out of with `try_into`). -/
inductive Message where
  | msg0 (m : Message0)
  | msg1 (m : Message1)
  | msg2 (m : Message2)
  deriving DecidableEq, Repr

end XmrBtc.Alice

namespace XmrBtc.Bob

open XmrBtc

/-- The three wire variants an incoming Alice message can be. -/
inductive MsgVariant where
  | message0
  | message1
  | message2
  deriving DecidableEq, Repr

/-- The variant of a delivered Alice message. -/
def variantOf : Alice.Message → MsgVariant
  | .msg0 _ => .message0
  | .msg1 _ => .message1
  | .msg2 _ => .message2

/-- The error outcomes of Bob's `next_state` that the embedding
distinguishes. `unexpectedMessage` is `bob::message::UnexpectedMessage`
raised by the failing `TryFrom` conversions on a mismatched variant;
the others name the failing step of the branch. -/
inductive Error where
  | unexpectedMessage
  | notMoneroPoint
  | dleqVerificationFailed
  | buildTxLockFailed
  | invalidSignature
  | invalidEncryptedSignature
  | signTxLockFailed
  | broadcastFailed
  | checkTransferFailed
  | getRawTransactionFailed
  | extractSignatureFailed
  | recoverFailed
  | importOutputFailed
  deriving DecidableEq, Repr

/-- Modelled from the spec: the failing `TryFrom<alice::Message>`
conversion Bob runs in the `State0` branch (`...try_into()?`); a
non-`Message0` variant is rejected with `UnexpectedMessage`. -/
def tryIntoMessage0 : Alice.Message → Except Error Alice.Message0
  | .msg0 m => .ok m
  | _ => .error .unexpectedMessage

/-- Modelled from the spec: the failing `TryFrom<alice::Message>`
conversion of the `State1` branch. -/
def tryIntoMessage1 : Alice.Message → Except Error Alice.Message1
  | .msg1 m => .ok m
  | _ => .error .unexpectedMessage

/-- Modelled from the spec: the failing `TryFrom<alice::Message>`
conversion of the `State3` branch. -/
def tryIntoMessage2 : Alice.Message → Except Error Alice.Message2
  | .msg2 m => .ok m
  | _ => .error .unexpectedMessage

/-- The externally observable actions `next_state` can perform, in the
order they are performed. `persistState` is a write to the persistent
swap-state store (`Database::insert_latest_state`); it is part of the
effect alphabet so that persist-before-broadcast claims are statable
over traces. -/
inductive Effect where
  | sendMessage
  | persistState
  | buildTxLockPsbt
  | signTxLock
  | broadcastTx
  | checkTransfer
  | getRawTransaction
  | importOutput
  deriving DecidableEq, Repr

/-- `bob::State0` (fields as in the source). -/
structure State0 where
  b : BitcoinSecretKey
  s_b : CrossCurveScalar
  v_b : PrivateViewKey
  btc : BtcAmount
  xmr : XmrAmount
  refund_timelock : Nat
  punish_timelock : Nat
  refund_address : BitcoinAddress
  deriving DecidableEq, Repr

/-- `bob::State1` (fields as in the source). -/
structure State1 where
  A : BitcoinPublicKey
  b : BitcoinSecretKey
  s_b : CrossCurveScalar
  S_a_monero : MoneroPublicKey
  S_a_bitcoin : BitcoinPublicKey
  v : PrivateViewKey
  btc : BtcAmount
  xmr : XmrAmount
  refund_timelock : Nat
  punish_timelock : Nat
  refund_address : BitcoinAddress
  redeem_address : BitcoinAddress
  punish_address : BitcoinAddress
  tx_lock : TxLock
  deriving DecidableEq, Repr

/-- `bob::State2` (fields as in the source: `State1` plus Alice's
cancel signature and refund adaptor signature). -/
structure State2 where
  A : BitcoinPublicKey
  b : BitcoinSecretKey
  s_b : CrossCurveScalar
  S_a_monero : MoneroPublicKey
  S_a_bitcoin : BitcoinPublicKey
  v : PrivateViewKey
  btc : BtcAmount
  xmr : XmrAmount
  refund_timelock : Nat
  punish_timelock : Nat
  refund_address : BitcoinAddress
  redeem_address : BitcoinAddress
  punish_address : BitcoinAddress
  tx_lock : TxLock
  tx_cancel_sig_a : Sig
  tx_refund_encsig : EncSig
  deriving DecidableEq, Repr

/-- `bob::State3` (same fields as `State2` in the source). -/
structure State3 where
  A : BitcoinPublicKey
  b : BitcoinSecretKey
  s_b : CrossCurveScalar
  S_a_monero : MoneroPublicKey
  S_a_bitcoin : BitcoinPublicKey
  v : PrivateViewKey
  btc : BtcAmount
  xmr : XmrAmount
  refund_timelock : Nat
  punish_timelock : Nat
  refund_address : BitcoinAddress
  redeem_address : BitcoinAddress
  punish_address : BitcoinAddress
  tx_lock : TxLock
  tx_cancel_sig_a : Sig
  tx_refund_encsig : EncSig
  deriving DecidableEq, Repr

/-- `bob::State4` (same fields as `State3` in the source). -/
structure State4 where
  A : BitcoinPublicKey
  b : BitcoinSecretKey
  s_b : CrossCurveScalar
  S_a_monero : MoneroPublicKey
  S_a_bitcoin : BitcoinPublicKey
  v : PrivateViewKey
  btc : BtcAmount
  xmr : XmrAmount
  refund_timelock : Nat
  punish_timelock : Nat
  refund_address : BitcoinAddress
  redeem_address : BitcoinAddress
  punish_address : BitcoinAddress
  tx_lock : TxLock
  tx_cancel_sig_a : Sig
  tx_refund_encsig : EncSig
  deriving DecidableEq, Repr

/-- `bob::State5` (fields as in the source: adds the recovered `s_a`,
renames `tx_cancel_sig_a` to `tx_cancel_sig`). -/
structure State5 where
  A : BitcoinPublicKey
  b : BitcoinSecretKey
  s_a : MoneroPrivateKey
  s_b : CrossCurveScalar
  S_a_monero : MoneroPublicKey
  S_a_bitcoin : BitcoinPublicKey
  v : PrivateViewKey
  btc : BtcAmount
  xmr : XmrAmount
  refund_timelock : Nat
  punish_timelock : Nat
  refund_address : BitcoinAddress
  redeem_address : BitcoinAddress
  punish_address : BitcoinAddress
  tx_lock : TxLock
  tx_refund_encsig : EncSig
  tx_cancel_sig : Sig
  deriving DecidableEq, Repr

/-- The `bob::State` enum. -/
inductive State where
  | state0 (s : State0)
  | state1 (s : State1)
  | state2 (s : State2)
  | state3 (s : State3)
  | state4 (s : State4)
  | state5 (s : State5)
  deriving DecidableEq, Repr

/-- The environment a run of `next_state` interacts with: the message
the transport will deliver, and the oracles behind the wallet and
crypto-library traits (`BuildTxLockPsbt`, `SignTxLock`,
`BroadcastSignedTransaction`, `GetRawTransaction`, `CheckTransfer`,
`ImportOutput`, ECDSA verification, adaptor verification, witness
signature extraction and adaptor recovery). `none` / `false` results
model the fallible call returning an error. -/
structure Env where
  incoming : Alice.Message
  buildTxLock : BtcAmount → BitcoinPublicKey → BitcoinPublicKey → Option TxLock
  signTxLock : TxLock → Option Transaction
  broadcast : Transaction → Option Txid
  checkTransfer : MoneroPublicKey → Nat → TransferProof → XmrAmount → Bool
  importOutput : MoneroPrivateKey → PrivateViewKey → Bool
  verifySig : BitcoinPublicKey → Nat → Sig → Bool
  verifyEncsig : BitcoinPublicKey → BitcoinPublicKey → Nat → EncSig → Bool
  getRawTransaction : Txid → Option Transaction
  extractSigByKey : TxRedeem → Transaction → BitcoinPublicKey → Option Sig
  recover : BitcoinPublicKey → Sig → EncSig → Option Nat

/-- `monero::PublicKey::from_private_key`, embedded as an injective
token map onto compressed points that decompress. -/
def moneroPublicOf (scalar : Nat) : MoneroPublicKey :=
  { point := Nat.pair 2 scalar, decompressible := true }

/-- `monero::PublicKey` addition (`S_a_monero + S_b_monero`). -/
def moneroAdd (p q : MoneroPublicKey) : MoneroPublicKey :=
  { point := p.point + q.point, decompressible := p.decompressible && q.decompressible }

/-- `PrivateViewKey::public()`. -/
def viewPublic (v : PrivateViewKey) : Nat :=
  Nat.pair 3 v

/-- `bob::State0::receive`: verify Alice's DLEQ proof for `s_a`
(decompressing `S_a_monero` first, as the source does while evaluating
the arguments of `verify`), then ask the wallet to build `TxLock`, then
assemble `State1`. Returns the successor state or the error, together
with the trace of effects performed. -/
def receive0 (env : Env) (s : State0) (msg : Alice.Message0) :
    Except Error State1 × List Effect :=
  match msg.S_a_monero.decompress with
  | none => (.error .notMoneroPoint, [])
  | some _ =>
    if msg.dleq_proof_s_a.verify then
      match env.buildTxLock s.btc msg.A (bitcoinPublic s.b) with
      | none => (.error .buildTxLockFailed, [.buildTxLockPsbt])
      | some tx_lock =>
        (.ok
          { A := msg.A
            b := s.b
            s_b := s.s_b
            S_a_monero := msg.S_a_monero
            S_a_bitcoin := msg.S_a_bitcoin
            v := msg.v_a + s.v_b
            btc := s.btc
            xmr := s.xmr
            refund_timelock := s.refund_timelock
            punish_timelock := s.punish_timelock
            refund_address := s.refund_address
            redeem_address := msg.redeem_address
            punish_address := msg.punish_address
            tx_lock := tx_lock }, [.buildTxLockPsbt])
    else (.error .dleqVerificationFailed, [])

/-- `bob::State1::receive`: rebuild `TxCancel` and `TxRefund`, verify
Alice's cancel signature and refund adaptor signature, then assemble
`State2`. Pure (no wallet or transport effects). -/
def receive1 (env : Env) (s : State1) (msg : Alice.Message1) : Except Error State2 :=
  let tx_cancel : TxCancel :=
    { tx_lock_id := s.tx_lock.id, timelock := s.refund_timelock
      A := s.A, B := bitcoinPublic s.b }
  let tx_refund : TxRefund := { cancel := tx_cancel, address := s.refund_address }
  if env.verifySig s.A tx_cancel.digest msg.tx_cancel_sig then
    if env.verifyEncsig s.A s.s_b tx_refund.digest msg.tx_refund_encsig then
      .ok
        { A := s.A
          b := s.b
          s_b := s.s_b
          S_a_monero := s.S_a_monero
          S_a_bitcoin := s.S_a_bitcoin
          v := s.v
          btc := s.btc
          xmr := s.xmr
          refund_timelock := s.refund_timelock
          punish_timelock := s.punish_timelock
          refund_address := s.refund_address
          redeem_address := s.redeem_address
          punish_address := s.punish_address
          tx_lock := s.tx_lock
          tx_cancel_sig_a := msg.tx_cancel_sig
          tx_refund_encsig := msg.tx_refund_encsig }
    else .error .invalidEncryptedSignature
  else .error .invalidSignature

/-- `bob::State2::lock_btc`: have the wallet sign `TxLock`, broadcast
the signed transaction, and assemble `State3`. The trace records the
wallet calls in source order. -/
def lockBtc (env : Env) (s : State2) : Except Error State3 × List Effect :=
  match env.signTxLock s.tx_lock with
  | none => (.error .signTxLockFailed, [.signTxLock])
  | some signed_tx_lock =>
    match env.broadcast signed_tx_lock with
    | none => (.error .broadcastFailed, [.signTxLock, .broadcastTx])
    | some _ =>
      (.ok
        { A := s.A
          b := s.b
          s_b := s.s_b
          S_a_monero := s.S_a_monero
          S_a_bitcoin := s.S_a_bitcoin
          v := s.v
          btc := s.btc
          xmr := s.xmr
          refund_timelock := s.refund_timelock
          punish_timelock := s.punish_timelock
          refund_address := s.refund_address
          redeem_address := s.redeem_address
          punish_address := s.punish_address
          tx_lock := s.tx_lock
          tx_cancel_sig_a := s.tx_cancel_sig_a
          tx_refund_encsig := s.tx_refund_encsig }, [.signTxLock, .broadcastTx])

/-- `bob::State3::watch_for_lock_xmr`: compute the joint Monero spend
key, ask the Monero wallet to check Alice's transfer proof, and
assemble `State4`. -/
def watchForLockXmr (env : Env) (s : State3) (msg : Alice.Message2) :
    Except Error State4 × List Effect :=
  let S_b_monero := moneroPublicOf s.s_b
  let S := moneroAdd s.S_a_monero S_b_monero
  if env.checkTransfer S (viewPublic s.v) msg.tx_lock_proof s.xmr then
    (.ok
      { A := s.A
        b := s.b
        s_b := s.s_b
        S_a_monero := s.S_a_monero
        S_a_bitcoin := s.S_a_bitcoin
        v := s.v
        btc := s.btc
        xmr := s.xmr
        refund_timelock := s.refund_timelock
        punish_timelock := s.punish_timelock
        refund_address := s.refund_address
        redeem_address := s.redeem_address
        punish_address := s.punish_address
        tx_lock := s.tx_lock
        tx_cancel_sig_a := s.tx_cancel_sig_a
        tx_refund_encsig := s.tx_refund_encsig }, [.checkTransfer])
  else (.error .checkTransferFailed, [.checkTransfer])

/-- `bob::State4::watch_for_redeem_btc`: fetch the redeem transaction
from the chain, extract Alice's plain signature from its witness,
recover `s_a` from the adaptor, and assemble `State5`. -/
def watchForRedeemBtc (env : Env) (s : State4) : Except Error State5 × List Effect :=
  let tx_redeem : TxRedeem := { tx_lock_id := s.tx_lock.id, address := s.redeem_address }
  let tx_redeem_encsig := bitcoinEncsign s.b s.S_a_bitcoin tx_redeem.digest
  match env.getRawTransaction tx_redeem.txid with
  | none => (.error .getRawTransactionFailed, [.getRawTransaction])
  | some tx_redeem_candidate =>
    match env.extractSigByKey tx_redeem tx_redeem_candidate (bitcoinPublic s.b) with
    | none => (.error .extractSignatureFailed, [.getRawTransaction])
    | some tx_redeem_sig =>
      match env.recover s.S_a_bitcoin tx_redeem_sig tx_redeem_encsig with
      | none => (.error .recoverFailed, [.getRawTransaction])
      | some s_a =>
        (.ok
          { A := s.A
            b := s.b
            s_a := s_a
            s_b := s.s_b
            S_a_monero := s.S_a_monero
            S_a_bitcoin := s.S_a_bitcoin
            v := s.v
            btc := s.btc
            xmr := s.xmr
            refund_timelock := s.refund_timelock
            punish_timelock := s.punish_timelock
            refund_address := s.refund_address
            redeem_address := s.redeem_address
            punish_address := s.punish_address
            tx_lock := s.tx_lock
            tx_refund_encsig := s.tx_refund_encsig
            tx_cancel_sig := s.tx_cancel_sig_a }, [.getRawTransaction])

/-- `bob::State5::claim_xmr`: import the joint spend key into a fresh
Monero wallet. -/
def claimXmr (env : Env) (s : State5) : Except Error Unit × List Effect :=
  let s_joint := s.s_a + s.s_b
  if env.importOutput s_joint s.v then (.ok (), [.importOutput])
  else (.error .importOutputFailed, [.importOutput])

/-- `bob::next_state` (`src/xmr-btc/src/bob.rs` lines 23-79), with the
transport receive resolved to `env.incoming` and each `await?` on a
wallet or transport call recorded in the effect trace in source order:

* `State0`: send `Message0`, receive and convert Alice's `Message0`,
  run `State0::receive`.
* `State1`: send `Message1`, receive and convert Alice's `Message1`,
  run `State1::receive`.
* `State2`: compute `Message2`, run `State2::lock_btc` (sign and
  broadcast `TxLock`), then send `Message2`.
* `State3`: receive and convert Alice's `Message2`, run
  `State3::watch_for_lock_xmr`.
* `State4`: send `Message3`, run `State4::watch_for_redeem_btc`, then
  `State5::claim_xmr`.
* `State5`: return the state unchanged.

No branch has access to a persistent store: `next_state` takes only
wallets, a transport and the state, so no `persistState` effect ever
occurs. -/
def nextState (env : Env) (state : State) : Except Error State × List Effect :=
  match state with
  | .state0 s =>
    match tryIntoMessage0 env.incoming with
    | .error e => (.error e, [.sendMessage])
    | .ok msg =>
      match receive0 env s msg with
      | (.error e, tr) => (.error e, .sendMessage :: tr)
      | (.ok s1, tr) => (.ok (.state1 s1), .sendMessage :: tr)
  | .state1 s =>
    match tryIntoMessage1 env.incoming with
    | .error e => (.error e, [.sendMessage])
    | .ok msg =>
      match receive1 env s msg with
      | .error e => (.error e, [.sendMessage])
      | .ok s2 => (.ok (.state2 s2), [.sendMessage])
  | .state2 s =>
    match lockBtc env s with
    | (.error e, tr) => (.error e, tr)
    | (.ok s3, tr) => (.ok (.state3 s3), tr ++ [.sendMessage])
  | .state3 s =>
    match tryIntoMessage2 env.incoming with
    | .error e => (.error e, [])
    | .ok msg =>
      match watchForLockXmr env s msg with
      | (.error e, tr) => (.error e, tr)
      | (.ok s4, tr) => (.ok (.state4 s4), tr)
  | .state4 s =>
    match watchForRedeemBtc env s with
    | (.error e, tr) => (.error e, .sendMessage :: tr)
    | (.ok s5, tr) =>
      match claimXmr env s5 with
      | (.error e, tr2) => (.error e, .sendMessage :: (tr ++ tr2))
      | (.ok _, tr2) => (.ok (.state5 s5), .sendMessage :: (tr ++ tr2))
  | .state5 s => (.ok (.state5 s), [])

/-- The message variant each state's `next_state` branch tries to
convert the delivered Alice message into; `none` for the branches that
perform no transport receive (`State2`, `State4`, `State5`). -/
def expectedVariant : State → Option MsgVariant
  | .state0 _ => some .message0
  | .state1 _ => some .message1
  | .state2 _ => none
  | .state3 _ => some .message2
  | .state4 _ => none
  | .state5 _ => none

end XmrBtc.Bob

namespace Swap.Bitcoin

/-- Modelled from the spec: the Bitcoin wallet's script status
(`script_status(script) -> {Unseen | Confirmed(u32 confirmations)}`;
`src/swap/src/bitcoin/wallet.rs` is not under `src/`). -/
inductive ScriptStatus where
  | unseen
  | confirmed (confirmations : Nat)
  deriving DecidableEq, Repr

/-- Modelled from the spec: the number of confirmations a script status
represents; an unseen script has none. -/
def ScriptStatus.confirmations : ScriptStatus → Nat
  | .unseen => 0
  | .confirmed c => c

/-- Modelled from the spec: `ScriptStatus::is_confirmed_with(timelock)`
holds when the script has at least `timelock` confirmations. -/
def ScriptStatus.is_confirmed_with (s : ScriptStatus) (timelock : Nat) : Bool :=
  timelock ≤ s.confirmations

/-- `CancelTimelock` (a `u32` newtype, declared in
`src/swap/src/bitcoin/cancel.rs` which is not under `src/`). -/
abbrev CancelTimelock := Nat

/-- `PunishTimelock` (a `u32` newtype). -/
abbrev PunishTimelock := Nat

/-- `bitcoin::timelocks::ExpiredTimelocks`. -/
inductive ExpiredTimelocks where
  | none
  | cancel
  | punish
  deriving DecidableEq, Repr

/-- `current_epoch` (`src/swap/src/bitcoin.rs` lines 226-241): punish
epoch if `TxCancel`'s script is confirmed with the punish timelock,
else cancel epoch if `TxLock`'s script is confirmed with the cancel
timelock, else none. -/
def current_epoch (cancel_timelock : CancelTimelock) (punish_timelock : PunishTimelock)
    (tx_lock_status : ScriptStatus) (tx_cancel_status : ScriptStatus) : ExpiredTimelocks :=
  if tx_cancel_status.is_confirmed_with punish_timelock then .punish
  else if tx_lock_status.is_confirmed_with cancel_timelock then .cancel
  else .none

end Swap.Bitcoin

namespace Swap.Storage

/-- A serialised value (`Vec<u8>` in the source, `sled::IVec` inside
the store). -/
abbrev Blob := List Nat

/-- Modelled from the spec: the sled tree, an ordered key-value store
(`sled` is an external crate); embedded as an association list keyed by
serialised keys. -/
abbrev SledDb := List (Blob × Blob)

/-- Modelled from the spec: `sled::Db::get`. -/
def sledGet (db : SledDb) (key : Blob) : Option Blob :=
  (db.find? (fun kv => kv.1 = key)).map (fun kv => kv.2)

/-- Modelled from the spec: writing a key's value into the sled tree. -/
def sledSet (db : SledDb) (key : Blob) (value : Blob) : SledDb :=
  (key, value) :: db.filter (fun kv => kv.1 ≠ key)

/-- Modelled from the spec: `sled::Db::compare_and_swap(key, expected,
new)` fails, leaving the store untouched, when the current value of
`key` differs from `expected`; otherwise it writes `new`. Returns the
operation outcome together with the (possibly unchanged) store. -/
def sledCompareAndSwap (db : SledDb) (key : Blob) (expected : Option Blob)
    (new : Blob) : Except Unit Unit × SledDb :=
  if sledGet db key = expected then (.ok (), sledSet db key new)
  else (.error (), db)

/-- Modelled from the spec: a serde-CBOR codec for a value type, with
the round-trip property of a self-describing tagged encoding
(`serde_cbor` is an external crate; `src/swap/src/storage.rs` only
wraps it in `serialize` / `deserialize`). -/
structure CborCodec (T : Type) where
  enc : T → Blob
  dec : Blob → Option T
  dec_enc : ∀ t, dec (enc t) = some t

/-- `Database::insert_latest_state` (`src/swap/src/storage.rs` lines
61-78): serialise the swap id and the state, read the currently stored
value, and compare-and-swap the new value against it (the synchronous
flush has no observable effect in the embedding). -/
def insert_latest_state {K T : Type} (cK : CborCodec K) (cT : CborCodec T)
    (db : SledDb) (swap_id : K) (state : T) : Except Unit Unit × SledDb :=
  let key := cK.enc swap_id
  let new_value := cT.enc state
  let old_value := sledGet db key
  sledCompareAndSwap db key old_value new_value

/-- `Database::get_latest_state` (`src/swap/src/storage.rs` lines
80-90): look the serialised swap id up and decode the stored blob. -/
def get_latest_state {K T : Type} (cK : CborCodec K) (cT : CborCodec T)
    (db : SledDb) (swap_id : K) : Option T :=
  (sledGet db (cK.enc swap_id)).bind cT.dec

end Swap.Storage

namespace Swap.Network

/-- The serde data formats at play in the repository. -/
inductive SerdeFormat where
  | json
  | cbor
  deriving DecidableEq, Repr

/-- `BobToAlice` (`src/swap/src/network/request_response.rs` lines
22-30), payloads as tokens. -/
inductive BobToAlice where
  | amountsFromBtc (sat : Nat)
  | amountsFromXmr (piconero : Nat)
  | message0 (m : Nat)
  | message1 (m : Nat)
  | message2 (m : Nat)
  | message3 (m : Nat)
  deriving DecidableEq, Repr

/-- `AliceToBob` (`src/swap/src/network/request_response.rs` lines
35-41). -/
inductive AliceToBob where
  | amounts (btc : Nat) (xmr : Nat)
  | message0 (m : Nat)
  | message1 (m : Nat)
  | message2 (m : Nat)
  | message3
  deriving DecidableEq, Repr

/-- `Codec::write_request` (`src/swap/src/network/request_response.rs`
lines 91-104): the bytes put on the wire are `serde_json::to_vec(&req)`
— the JSON rendering of the request under the given family of
serialisers (one per data format; the serialisers themselves live in
the external `serde_json` / `serde_cbor` crates). -/
def write_request_bytes (enc : SerdeFormat → BobToAlice → Swap.Storage.Blob)
    (req : BobToAlice) : Swap.Storage.Blob :=
  enc .json req

/-- `Codec::write_response` (lines 106-119): `serde_json::to_vec(&res)`. -/
def write_response_bytes (enc : SerdeFormat → AliceToBob → Swap.Storage.Blob)
    (res : AliceToBob) : Swap.Storage.Blob :=
  enc .json res

/-- `Codec::read_request` (lines 61-72): the received bytes are parsed
with `serde_json::Deserializer::from_slice`. -/
def read_request_parsed (dec : SerdeFormat → Swap.Storage.Blob → Option BobToAlice)
    (bytes : Swap.Storage.Blob) : Option BobToAlice :=
  dec .json bytes

/-- `Codec::read_response` (lines 74-89): parsed with
`serde_json::Deserializer::from_slice`. -/
def read_response_parsed (dec : SerdeFormat → Swap.Storage.Blob → Option AliceToBob)
    (bytes : Swap.Storage.Blob) : Option AliceToBob :=
  dec .json bytes

/-- The serialisation format `storage::serialize` uses for the
persistent store (`serde_cbor::to_vec`, `src/swap/src/storage.rs` line
97). -/
def storage_format : SerdeFormat := .cbor

end Swap.Network

namespace Swap.Cli

/-- `monero::Network` (from the external `monero` crate; the three
networks its address type distinguishes). -/
inductive MoneroNetwork where
  | mainnet
  | stagenet
  | testnet
  deriving DecidableEq, Repr

/-- A Monero address as `validate_monero_address` inspects it: only its
network matters, the rest is a token. -/
structure MoneroAddress where
  network : MoneroNetwork
  payload : Nat
  deriving DecidableEq, Repr

/-- `MoneroAddressNetworkMismatch` (`src/swap/src/cli/command.rs` lines
506-511). -/
structure MoneroAddressNetworkMismatch where
  expected : MoneroNetwork
  actual : MoneroNetwork
  deriving DecidableEq, Repr

/-- The network `validate_monero_address` expects: Stagenet under
`--testnet`, Mainnet otherwise. -/
def expected_network (testnet : Bool) : MoneroNetwork :=
  if testnet then .stagenet else .mainnet

/-- `validate_monero_address` (`src/swap/src/cli/command.rs` lines
477-495): reject an address whose network differs from the expected
one with a `MoneroAddressNetworkMismatch` naming both networks,
otherwise return the address unchanged. -/
def validate_monero_address (address : MoneroAddress) (testnet : Bool) :
    Except MoneroAddressNetworkMismatch MoneroAddress :=
  let expected := expected_network testnet
  if address.network ≠ expected then
    .error { expected := expected, actual := address.network }
  else .ok address

end Swap.Cli

namespace Swap.Alice

/-- `SwapAmounts` (btc in satoshi, xmr in piconero). -/
structure SwapAmounts where
  btc : Nat
  xmr : Nat
  deriving DecidableEq, Repr

/-- `XMR_PER_BTC` (`src/swap/src/alice.rs` line 247). -/
def XMR_PER_BTC : Nat := 100

/-- `calculate_amounts` (`src/swap/src/alice.rs` lines 246-255):
`picos = (btc.as_sat() * 10000) * XMR_PER_BTC` in `u64` arithmetic
(embedded with explicit reduction modulo `2^64`). -/
def calculate_amounts (btcSat : Nat) : SwapAmounts :=
  let picos := (btcSat * 10000) % 2 ^ 64 * XMR_PER_BTC % 2 ^ 64
  { btc := btcSat, xmr := picos }

end Swap.Alice

namespace Adaptor

/-!
The ECDSA adaptor-signature algebra behind `SecretKey::encsign`,
`Adaptor::decrypt_signature` and `bitcoin::recover`
(`recover_decryption_key`). The scheme lives in the external
`ecdsa_fun` crate; it is modelled from the spec's description of the
four adaptor properties over the scalar field of the curve. Points of
the prime-order group are represented by their discrete logarithms
(every point is `x·G` for a unique scalar `x`), and the projection of a
point to the x-coordinate scalar used inside ECDSA is an arbitrary
function `xcoord` of the discrete logarithm. The field is kept
abstract: secp256k1's scalar field is `ZMod n` for the prime group
order `n`, and no argument below depends on which decidable field is
used.
-/

/-- `ecdsa_fun::adaptor::EncryptedSignature`, reduced to the data the
round-trip depends on: the x-coordinate scalar of `R = r·Y` and the
encrypted s-value `ŝ = r⁻¹(m + R_x·k)`. -/
structure EncryptedSignature (F : Type) where
  R_x : F
  s_hat : F
  deriving DecidableEq, Repr

/-- `ecdsa_fun::Signature`: x-coordinate scalar and s-value. -/
structure Signature (F : Type) where
  R_x : F
  s : F
  deriving DecidableEq, Repr

/-- Modelled from the spec: `adaptor_encsign(k, Y, m)` with nonce `r`
(the source derives `r` deterministically from the secret inputs; the
embedding takes it as an argument). `Y = y·G` is given by its discrete
logarithm `y`, so `R = r·Y` has discrete logarithm `r * y`. -/
def encsign {F : Type} [Field F] (xcoord : F → F) (r k y m : F) :
    EncryptedSignature F :=
  let Rx := xcoord (r * y)
  { R_x := Rx, s_hat := r⁻¹ * (m + Rx * k) }

/-- Modelled from the spec: `adaptor_decrypt(y, encsig)`
(`Adaptor::decrypt_signature`): `s = ŝ·y⁻¹`, then the low-S
normalisation conditionally negates `s` (`isHigh` is the library's
high-S predicate, abstract here). -/
def decrypt {F : Type} [Field F] (isHigh : F → Bool) (y : F)
    (e : EncryptedSignature F) : Signature F :=
  let s0 := e.s_hat * y⁻¹
  { R_x := e.R_x, s := if isHigh s0 then -s0 else s0 }

/-- Modelled from the spec: `adaptor_recover(Y, sig, encsig)`
(`recover_decryption_key`): the candidate `ŝ·s⁻¹` is the decryption
key if its point matches `Y`, its negation if the negated point
matches, and the recovery fails otherwise (the unlinked case). -/
def recover {F : Type} [Field F] [DecidableEq F] (Y : F) (sig : Signature F)
    (e : EncryptedSignature F) : Option F :=
  let y := e.s_hat * sig.s⁻¹
  if y = Y then some y
  else if -y = Y then some (-y)
  else none

end Adaptor

namespace XmrBtc.Bob

/-- A concrete environment in which every wallet and crypto call
succeeds and the transport delivers Alice's `Message2`. -/
def sampleEnv : Env :=
  { incoming := .msg2 { tx_lock_proof := 0 }
    buildTxLock := fun _ _ _ => some { id := 0 }
    signTxLock := fun _ => some 0
    broadcast := fun _ => some 0
    checkTransfer := fun _ _ _ _ => true
    importOutput := fun _ _ => true
    verifySig := fun _ _ _ => true
    verifyEncsig := fun _ _ _ _ => true
    getRawTransaction := fun _ => some 0
    extractSigByKey := fun _ _ _ => some 0
    recover := fun _ _ _ => some 0 }

/-- A concrete `State2` (all tokens zero). -/
def sampleState2 : State2 :=
  { A := 0, b := 0, s_b := 0, S_a_monero := { point := 0, decompressible := true }
    S_a_bitcoin := 0, v := 0, btc := 0, xmr := 0, refund_timelock := 0
    punish_timelock := 0, refund_address := 0, redeem_address := 0
    punish_address := 0, tx_lock := { id := 0 }, tx_cancel_sig_a := 0
    tx_refund_encsig := 0 }

/-- A concrete `State1` (all tokens zero). -/
def sampleState1 : State1 :=
  { A := 0, b := 0, s_b := 0, S_a_monero := { point := 0, decompressible := true }
    S_a_bitcoin := 0, v := 0, btc := 0, xmr := 0, refund_timelock := 0
    punish_timelock := 0, refund_address := 0, redeem_address := 0
    punish_address := 0, tx_lock := { id := 0 } }

/-- A concrete `State0` (all tokens zero). -/
def sampleState0 : State0 :=
  { b := 0, s_b := 0, v_b := 0, btc := 0, xmr := 0, refund_timelock := 0
    punish_timelock := 0, refund_address := 0 }

/-- Alice's `Message0` carrying a DLEQ proof that does not verify. -/
def sampleMsg0Bad : Alice.Message0 :=
  { A := 0, S_a_monero := { point := 0, decompressible := true }, S_a_bitcoin := 0
    dleq_proof_s_a := { valid := false }, v_a := 0, redeem_address := 0
    punish_address := 0 }

/-- `sampleEnv` with the transport delivering `sampleMsg0Bad`. -/
def sampleEnvBadDleq : Env :=
  { sampleEnv with incoming := .msg0 sampleMsg0Bad }

lemma receive0_trace (env : Env) (s : State0) (m : Alice.Message0) :
    (receive0 env s m).2 = [] ∨ (receive0 env s m).2 = [Effect.buildTxLockPsbt] := by
  unfold receive0
  rcases h : m.S_a_monero.decompress with _ | p
  · exact Or.inl rfl
  · by_cases hv : m.dleq_proof_s_a.verify
    · rcases hb : env.buildTxLock s.btc m.A (bitcoinPublic s.b) with _ | t <;>
        simp [hv, hb]
    · simp [hv]

lemma lockBtc_trace (env : Env) (s : State2) :
    (lockBtc env s).2 = [Effect.signTxLock] ∨
      (lockBtc env s).2 = [Effect.signTxLock, Effect.broadcastTx] := by
  unfold lockBtc
  rcases h : env.signTxLock s.tx_lock with _ | tx
  · exact Or.inl rfl
  · rcases hb : env.broadcast tx with _ | txid <;> simp [hb]

lemma watchForLockXmr_trace (env : Env) (s : State3) (m : Alice.Message2) :
    (watchForLockXmr env s m).2 = [Effect.checkTransfer] := by
  unfold watchForLockXmr
  by_cases h : env.checkTransfer (moneroAdd s.S_a_monero (moneroPublicOf s.s_b))
      (viewPublic s.v) m.tx_lock_proof s.xmr <;> simp [h]

lemma watchForRedeemBtc_trace (env : Env) (s : State4) :
    (watchForRedeemBtc env s).2 = [Effect.getRawTransaction] := by
  unfold watchForRedeemBtc
  rcases h : env.getRawTransaction
      (TxRedeem.txid { tx_lock_id := s.tx_lock.id, address := s.redeem_address }) with _ | tx
  · simp [h]
  · rcases h2 : env.extractSigByKey
        { tx_lock_id := s.tx_lock.id, address := s.redeem_address } tx
        (bitcoinPublic s.b) with _ | sig
    · simp [h, h2]
    · rcases h3 : env.recover s.S_a_bitcoin sig
          (bitcoinEncsign s.b s.S_a_bitcoin
            (TxRedeem.digest { tx_lock_id := s.tx_lock.id, address := s.redeem_address }))
          with _ | sa <;> simp [h, h2, h3]

lemma claimXmr_trace (env : Env) (s : State5) :
    (claimXmr env s).2 = [Effect.importOutput] := by
  unfold claimXmr
  by_cases h : env.importOutput (s.s_a + s.s_b) s.v <;> simp [h]

/-- No execution of `next_state` ever writes to the persistent
swap-state store: the function has no access to one, so `persistState`
cannot occur in any trace. -/
lemma nextState_no_persist (env : Env) (s : State) :
    Effect.persistState ∉ (nextState env s).2 := by
  cases s with
  | state0 s =>
    rcases h : tryIntoMessage0 env.incoming with e | msg
    · simp [nextState, h]
    · rcases h2 : receive0 env s msg with ⟨res, tr⟩
      have htr := receive0_trace env s msg
      rw [h2] at htr
      cases res <;> rcases htr with htr | htr <;>
        simp_all [nextState, h, h2]
  | state1 s =>
    rcases h : tryIntoMessage1 env.incoming with e | msg
    · simp [nextState, h]
    · rcases h2 : receive1 env s msg with e | s2 <;> simp [nextState, h, h2]
  | state2 s =>
    rcases h2 : lockBtc env s with ⟨res, tr⟩
    have htr := lockBtc_trace env s
    rw [h2] at htr
    cases res <;> rcases htr with htr | htr <;>
      simp_all [nextState, h2]
  | state3 s =>
    rcases h : tryIntoMessage2 env.incoming with e | msg
    · simp [nextState, h]
    · rcases h2 : watchForLockXmr env s msg with ⟨res, tr⟩
      have htr := watchForLockXmr_trace env s msg
      rw [h2] at htr
      cases res <;> simp_all [nextState, h, h2]
  | state4 s =>
    rcases h2 : watchForRedeemBtc env s with ⟨res, tr⟩
    have htr := watchForRedeemBtc_trace env s
    rw [h2] at htr
    cases res with
    | error e => simp_all [nextState, h2]
    | ok s5 =>
      rcases h3 : claimXmr env s5 with ⟨res2, tr2⟩
      have htr2 := claimXmr_trace env s5
      rw [h3] at htr2
      cases res2 <;> simp_all [nextState, h2, h3]
  | state5 s => simp [nextState]

/-- C1. The `State2` branch of Bob's `next_state` broadcasts the signed
`TxLock` without any preceding write to the persistent swap-state
store: at the failing input (a `State2` with a wallet whose signing and
broadcasting succeed) the effect trace is sign, broadcast, send — it
contains the broadcast and no `persistState` at all, contradicting the
claim that a state persist strictly precedes the broadcast. -/
theorem bob_lock_btc_broadcasts_without_persist :
    (nextState sampleEnv (.state2 sampleState2)).2 =
      [Effect.signTxLock, Effect.broadcastTx, Effect.sendMessage] ∧
    Effect.broadcastTx ∈ (nextState sampleEnv (.state2 sampleState2)).2 ∧
    Effect.persistState ∉ (nextState sampleEnv (.state2 sampleState2)).2 := by
  refine ⟨by decide, by decide, nextState_no_persist _ _⟩

/-- C3. If the DLEQ proof in Alice's `Message0` does not verify, Bob's
`next_state` on `State0` returns an error and the wallet is never asked
to build a `TxLock` (no `buildTxLockPsbt` effect occurs), so no
`TxLock` — signed or otherwise — exists in any subsequent state. -/
theorem bob_no_txlock_without_dleq (env : Env) (s : State0) (m : Alice.Message0)
    (hmsg : env.incoming = .msg0 m) (hproof : m.dleq_proof_s_a.verify = false) :
    (∃ e, (nextState env (.state0 s)).1 = .error e) ∧
    Effect.buildTxLockPsbt ∉ (nextState env (.state0 s)).2 := by
  have h : tryIntoMessage0 env.incoming = .ok m := by rw [hmsg]; rfl
  rcases hd : m.S_a_monero.decompress with _ | p
  · constructor
    · exact ⟨.notMoneroPoint, by simp [nextState, h, receive0, hd]⟩
    · simp [nextState, h, receive0, hd]
  · constructor
    · exact ⟨.dleqVerificationFailed, by simp [nextState, h, receive0, hd, hproof]⟩
    · simp [nextState, h, receive0, hd, hproof]

/-- Witness for C3 at a concrete input. -/
theorem bob_no_txlock_without_dleq_witness :
    sampleEnvBadDleq.incoming = .msg0 sampleMsg0Bad ∧
    sampleMsg0Bad.dleq_proof_s_a.verify = false ∧
    ((∃ e, (nextState sampleEnvBadDleq (.state0 sampleState0)).1 = .error e) ∧
      Effect.buildTxLockPsbt ∉ (nextState sampleEnvBadDleq (.state0 sampleState0)).2) :=
  ⟨rfl, rfl, bob_no_txlock_without_dleq sampleEnvBadDleq sampleState0 sampleMsg0Bad rfl rfl⟩

/-- C4. Whenever the current Bob state performs a transport receive and
the delivered Alice message is of a different variant than the one the
state expects, `next_state` fails with `UnexpectedMessage` and performs
no persistent-state write, so the observable swap state is unchanged. -/
theorem bob_rejects_unexpected_message (env : Env) (s : State) (v : MsgVariant)
    (hexp : expectedVariant s = some v) (hmis : variantOf env.incoming ≠ v) :
    (nextState env s).1 = .error .unexpectedMessage ∧
    Effect.persistState ∉ (nextState env s).2 := by
  refine ⟨?_, nextState_no_persist env s⟩
  cases s with
  | state0 s =>
    have hv : v = .message0 := by
      simpa [expectedVariant] using hexp.symm
    subst hv
    cases hin : env.incoming with
    | msg0 m => exact absurd (by simp [variantOf, hin]) hmis
    | msg1 m => simp [nextState, hin, tryIntoMessage0]
    | msg2 m => simp [nextState, hin, tryIntoMessage0]
  | state1 s =>
    have hv : v = .message1 := by
      simpa [expectedVariant] using hexp.symm
    subst hv
    cases hin : env.incoming with
    | msg1 m => exact absurd (by simp [variantOf, hin]) hmis
    | msg0 m => simp [nextState, hin, tryIntoMessage1]
    | msg2 m => simp [nextState, hin, tryIntoMessage1]
  | state2 s => simp [expectedVariant] at hexp
  | state3 s =>
    have hv : v = .message2 := by
      simpa [expectedVariant] using hexp.symm
    subst hv
    cases hin : env.incoming with
    | msg2 m => exact absurd (by simp [variantOf, hin]) hmis
    | msg0 m => simp [nextState, hin, tryIntoMessage2]
    | msg1 m => simp [nextState, hin, tryIntoMessage2]
  | state4 s => simp [expectedVariant] at hexp
  | state5 s => simp [expectedVariant] at hexp

/-- Witness for C4: a `Message2` delivered while in `State1` (the
claim's own example). -/
theorem bob_rejects_unexpected_message_witness :
    expectedVariant (.state1 sampleState1) = some .message1 ∧
    variantOf sampleEnv.incoming ≠ .message1 ∧
    ((nextState sampleEnv (.state1 sampleState1)).1 = .error .unexpectedMessage ∧
      Effect.persistState ∉ (nextState sampleEnv (.state1 sampleState1)).2) :=
  ⟨rfl, by decide,
    bob_rejects_unexpected_message sampleEnv (.state1 sampleState1) .message1 rfl (by decide)⟩

/-- C10. Bob's terminal state is a fixed point with an empty effect
trace: `next_state` on `State::State5(s)` returns `Ok(State::State5(s))`
and performs no transport, Bitcoin-wallet or Monero-wallet operation. -/
theorem bob_state5_fixed_point (env : Env) (s : State5) :
    nextState env (.state5 s) = (.ok (.state5 s), []) := rfl

end XmrBtc.Bob

namespace Adaptor

instance fact_prime_eleven : Fact (Nat.Prime 11) := ⟨by norm_num⟩

/-- C2. Adaptor round-trip: recovering from the decryption of an
adaptor signature returns the encryption secret. For every nonzero
encryption secret `y`, signing key `k`, digest `m` and nonzero nonce
`r` whose signature s-value is nonzero,
`recover (y·G) (decrypt y (encsign k (y·G) m)) (encsign k (y·G) m) = y`,
for any x-coordinate projection and any low-S normalisation policy. -/
theorem adaptor_round_trip {F : Type} [Field F] [DecidableEq F]
    (xcoord : F → F) (isHigh : F → Bool) (r k y m : F)
    (hy : y ≠ 0) (hr : r ≠ 0) (hm : m + xcoord (r * y) * k ≠ 0) :
    recover y (decrypt isHigh y (encsign xcoord r k y m)) (encsign xcoord r k y m) =
      some y := by
  have hS : r⁻¹ * (m + xcoord (r * y) * k) ≠ 0 :=
    mul_ne_zero (inv_ne_zero hr) hm
  have key : ∀ t : F, t ≠ 0 → t * (t * y⁻¹)⁻¹ = y := by
    intro t ht
    rw [mul_inv, inv_inv, ← mul_assoc, mul_inv_cancel₀ ht, one_mul]
  cases hhigh : isHigh (r⁻¹ * (m + xcoord (r * y) * k) * y⁻¹) with
  | true =>
    have hcand : r⁻¹ * (m + xcoord (r * y) * k) *
        (-(r⁻¹ * (m + xcoord (r * y) * k) * y⁻¹))⁻¹ = -y := by
      rw [inv_neg, mul_neg, key _ hS]
    simp only [encsign, decrypt, recover, hhigh, if_true]
    rw [hcand]
    by_cases hyy : -y = y
    · simp [hyy]
    · simp [hyy, neg_neg]
  | false =>
    have hcand := key _ hS
    simp only [encsign, decrypt, recover, hhigh, Bool.false_eq_true, if_false]
    rw [hcand]
    simp

/-- Witness for C2 over the field `ZMod 11`, with the identity
x-coordinate projection, never-high normalisation and
`r = k = y = m = 1`. -/
theorem adaptor_round_trip_witness :
    ((1 : ZMod 11) ≠ 0 ∧ (1 : ZMod 11) ≠ 0 ∧
      (1 : ZMod 11) + id ((1 : ZMod 11) * 1) * 1 ≠ 0) ∧
    recover (1 : ZMod 11)
        (decrypt (fun _ => false) 1 (encsign id 1 1 1 1)) (encsign id 1 1 1 1) =
      some 1 :=
  ⟨⟨by decide, by decide, by decide⟩,
    adaptor_round_trip id (fun _ => false) 1 1 1 1 (by decide) (by decide) (by decide)⟩

end Adaptor

namespace Swap.Storage

lemma sledGet_set_same (db : SledDb) (k v : Blob) :
    sledGet (sledSet db k v) k = some v := by
  simp [sledGet, sledSet]

/-- C5. Persistence law: inserting a state for a swap id succeeds and a
subsequent lookup decodes the stored CBOR blob back to the same value;
and a compare-and-swap whose expected old value differs from the
current stored value fails and leaves the store unchanged. -/
theorem storage_roundtrip_and_cas {K T : Type} (cK : CborCodec K) (cT : CborCodec T)
    (db : SledDb) (swap_id : K) (v : T) (key : Blob) (expected : Option Blob)
    (new : Blob) (hmis : sledGet db key ≠ expected) :
    (∃ db2, insert_latest_state cK cT db swap_id v = (.ok (), db2) ∧
      get_latest_state cK cT db2 swap_id = some v) ∧
    sledCompareAndSwap db key expected new = (.error (), db) := by
  constructor
  · refine ⟨sledSet db (cK.enc swap_id) (cT.enc v), ?_, ?_⟩
    · unfold insert_latest_state sledCompareAndSwap
      simp
    · unfold get_latest_state
      rw [sledGet_set_same]
      simp [cT.dec_enc]
  · unfold sledCompareAndSwap
    simp [hmis]

/-- A one-token codec on `Nat` used to instantiate the persistence
law. -/
def natBlobCodec : CborCodec Nat where
  enc := fun n => [n]
  dec := fun l => match l with | [n] => some n | _ => none
  dec_enc := fun _ => rfl

/-- Witness for C5: store value `7` under swap id `0` in the empty
store, and fail a compare-and-swap against a wrong expected value. -/
theorem storage_roundtrip_and_cas_witness :
    sledGet [] [0] ≠ some [1] ∧
    ((∃ db2, insert_latest_state natBlobCodec natBlobCodec [] 0 7 = (.ok (), db2) ∧
        get_latest_state natBlobCodec natBlobCodec db2 0 = some 7) ∧
      sledCompareAndSwap [] [0] (some [1]) [2] = (.error (), [])) :=
  ⟨by decide,
    storage_roundtrip_and_cas natBlobCodec natBlobCodec [] 0 7 [0] (some [1]) [2]
      (by decide)⟩

end Swap.Storage

namespace Swap.Network

/-- A family of serialisers that distinguishes the JSON and CBOR
formats on every message. -/
def distinguishingEnc : SerdeFormat → BobToAlice → Swap.Storage.Blob :=
  fun f _ => match f with | .json => [0] | .cbor => [1]

/-- C6 counterexample: the bytes `write_request` puts on the wire are
not the CBOR encoding of the message — at `BobToAlice::Message0` under
a serialiser family that renders JSON and CBOR differently, the wire
bytes differ from the CBOR bytes (the codec calls `serde_json::to_vec`). -/
theorem codec_wire_not_cbor :
    write_request_bytes distinguishingEnc (.message0 0) ≠
      distinguishingEnc SerdeFormat.cbor (.message0 0) := by
  decide

/-- C6 amended: every wire message written or parsed by the codec is
serialised as JSON (`serde_json`), not CBOR; the persistent store, not
the wire, uses the CBOR encoding. -/
theorem codec_wire_is_json :
    (∀ (enc : SerdeFormat → BobToAlice → Swap.Storage.Blob) (req : BobToAlice),
      write_request_bytes enc req = enc SerdeFormat.json req) ∧
    (∀ (enc : SerdeFormat → AliceToBob → Swap.Storage.Blob) (res : AliceToBob),
      write_response_bytes enc res = enc SerdeFormat.json res) ∧
    (∀ (dc : SerdeFormat → Swap.Storage.Blob → Option BobToAlice)
        (bytes : Swap.Storage.Blob),
      read_request_parsed dc bytes = dc SerdeFormat.json bytes) ∧
    (∀ (dc : SerdeFormat → Swap.Storage.Blob → Option AliceToBob)
        (bytes : Swap.Storage.Blob),
      read_response_parsed dc bytes = dc SerdeFormat.json bytes) ∧
    storage_format = SerdeFormat.cbor :=
  ⟨fun _ _ => rfl, fun _ _ => rfl, fun _ _ => rfl, fun _ _ => rfl, rfl⟩

end Swap.Network

namespace Swap.Alice

/-- C7 counterexample: `calculate_amounts` applied to 1 000 000 satoshi
does not yield 100 000 000 000 piconero. -/
theorem calculate_amounts_not_1e11 :
    (calculate_amounts 1000000).xmr ≠ 100000000000 := by decide

/-- C7 amended: `calculate_amounts` maps 1 000 000 satoshi to
1 000 000 000 000 piconero, and the computation is exact — the widened
product `10^6 * 10^4 * 10^2` stays below `2^64`, so the `u64`
arithmetic performs no reduction. -/
theorem calculate_amounts_happy_path :
    (calculate_amounts 1000000).xmr = 1000000000000 ∧
    1000000 * 10000 * 100 < 2 ^ 64 ∧
    (calculate_amounts 1000000).xmr = 1000000 * 10000 * 100 := by decide

end Swap.Alice

namespace Swap.Bitcoin

/-- C8. `current_epoch` returns `Punish` exactly when the `TxCancel`
script has at least `punish_timelock` confirmations; otherwise it
returns `Cancel` exactly when the `TxLock` script has at least
`cancel_timelock` confirmations; otherwise it returns `None`. -/
theorem current_epoch_spec (c : CancelTimelock) (p : PunishTimelock)
    (l x : ScriptStatus) :
    (current_epoch c p l x = .punish ↔ p ≤ x.confirmations) ∧
    (current_epoch c p l x = .cancel ↔
      (¬ p ≤ x.confirmations ∧ c ≤ l.confirmations)) ∧
    (current_epoch c p l x = .none ↔
      (¬ p ≤ x.confirmations ∧ ¬ c ≤ l.confirmations)) := by
  unfold current_epoch ScriptStatus.is_confirmed_with
  by_cases h1 : p ≤ x.confirmations <;> by_cases h2 : c ≤ l.confirmations <;>
    simp [h1, h2]

end Swap.Bitcoin

namespace Swap.Cli

/-- C9. `validate_monero_address` returns the address unchanged exactly
when its network is the expected one (Stagenet under `--testnet`,
Mainnet otherwise), and rejects a mismatched address with a
`MoneroAddressNetworkMismatch` naming the expected and actual
networks; the `?` on the call site propagates that failure out of
`parse_args_and_apply_defaults`. -/
theorem validate_monero_address_spec (address : MoneroAddress) (testnet : Bool) :
    (validate_monero_address address testnet = .ok address ↔
      address.network = expected_network testnet) ∧
    (address.network ≠ expected_network testnet →
      validate_monero_address address testnet =
        .error { expected := expected_network testnet, actual := address.network }) := by
  unfold validate_monero_address
  by_cases h : address.network = expected_network testnet <;> simp [h]

/-- Witness for C9: under `--testnet`, a mainnet address is rejected
naming Stagenet (expected) and Mainnet (actual); a stagenet address is
returned unchanged. -/
theorem validate_monero_address_witness :
    (MoneroAddress.mk .mainnet 0).network ≠ expected_network true ∧
    validate_monero_address ⟨.mainnet, 0⟩ true =
      .error { expected := expected_network true, actual := .mainnet } ∧
    validate_monero_address ⟨.stagenet, 0⟩ true = .ok ⟨.stagenet, 0⟩ :=
  ⟨by decide,
    (validate_monero_address_spec ⟨.mainnet, 0⟩ true).2 (by decide),
    (validate_monero_address_spec ⟨.stagenet, 0⟩ true).1.mpr (by decide)⟩

end Swap.Cli
